import Mathlib

/-!
Verification of the buy-vs-rent wealth calculator
(`pages/10_Expected Outcomes.py`).

The core of the program is four pure numeric functions:
`monthly_mortgage_payment`, `fv_lump_sum`, `fv_monthly_annuity`, and
`buy_vs_rent_wealth`, plus nested loops that sweep two parameters over a
grid of values (`data_A`, `data_B`, `data_C`).  We embed the arithmetic
over `ℚ` (the Python code computes with real arithmetic; no rounding is
part of the model).  Python raises `ZeroDivisionError` on division by
zero, so every division whose denominator can vanish is guarded through
`Option`: `none` models the raised exception, `some x` a returned number.
-/

namespace BuyVsRent

/-- The seven scenario inputs of `buy_vs_rent_wealth` (the Python
function takes them as keyword arguments; the spec groups them as
`ScenarioParameters`).  `termYears` is an integer in the source
(`years: int`), here `ℕ`. -/
structure ScenarioParameters where
  housePrice : ℚ
  downPaymentFraction : ℚ
  mortgageAnnualRate : ℚ
  termYears : ℕ
  rentYieldAnnual : ℚ
  investmentAnnualReturn : ℚ
  homeAppreciationAnnual : ℚ
deriving DecidableEq

/-- The triple returned by `buy_vs_rent_wealth`
(`buy_wealth, rent_wealth, diff`). -/
structure ScenarioResult where
  buyWealth : ℚ
  rentWealth : ℚ
  difference : ℚ
deriving DecidableEq

/-- Division as Python performs it: dividing by zero raises
`ZeroDivisionError` (modelled by `none`) instead of returning a number. -/
def qdiv (a b : ℚ) : Option ℚ :=
  if b = 0 then none else some (a / b)

/-- `monthly_mortgage_payment(principal, annual_rate, years)` from the
source: `r = annual_rate/12`, `n = years*12`; if `annual_rate == 0`
return `principal / n`, else
`principal * (r*(1+r)**n) / ((1+r)**n - 1)`.  The two divisions whose
denominators can vanish (`n = 0`, or `(1+r)^n = 1`) go through `qdiv`;
the division by the constant `12` cannot fail. -/
def monthly_mortgage_payment (principal annual_rate : ℚ) (years : ℕ) :
    Option ℚ :=
  let r := annual_rate / 12
  let n := years * 12
  if annual_rate = 0 then qdiv principal (n : ℚ)
  else qdiv (principal * (r * (1 + r) ^ n)) ((1 + r) ^ n - 1)

/-- `fv_lump_sum(pv, annual_rate, years) = pv * (1+annual_rate)**years`
from the source.  No division, hence total. -/
def fv_lump_sum (pv annual_rate : ℚ) (years : ℕ) : ℚ :=
  pv * (1 + annual_rate) ^ years

/-- `fv_monthly_annuity(pmt, annual_rate, years)` from the source:
`r = annual_rate/12`, `n = years*12`; if `annual_rate == 0` return
`pmt * n`, else `pmt * (((1+r)**n - 1) / r)`.  In the second branch the
denominator `r = annual_rate/12` is nonzero, so the function is total. -/
def fv_monthly_annuity (pmt annual_rate : ℚ) (years : ℕ) : ℚ :=
  let r := annual_rate / 12
  let n := years * 12
  if annual_rate = 0 then pmt * (n : ℚ)
  else pmt * (((1 + r) ^ n - 1) / r)

/-- `buy_vs_rent_wealth` from the source, in its exact order:
`loan = house_price*(1-down_pct)`, `down = house_price*down_pct`,
`m_mort = monthly_mortgage_payment(loan, mortgage_rate, term_years)`,
`monthly_rent = house_price*rent_yield/12`,
`monthly_contribution = m_mort - monthly_rent`,
`buy_wealth = fv_lump_sum(house_price, home_appreciation, term_years)`,
`rent_wealth = fv_lump_sum(down, invest_return, term_years)
             + fv_monthly_annuity(monthly_contribution, invest_return, term_years)`,
`diff = buy_wealth - rent_wealth`.  A `ZeroDivisionError` inside
`monthly_mortgage_payment` propagates (the whole call raises). -/
def buy_vs_rent_wealth (p : ScenarioParameters) : Option ScenarioResult :=
  let loan := p.housePrice * (1 - p.downPaymentFraction)
  let down := p.housePrice * p.downPaymentFraction
  (monthly_mortgage_payment loan p.mortgageAnnualRate p.termYears).map
    fun m_mort =>
      let monthly_rent := p.housePrice * p.rentYieldAnnual / 12
      let monthly_contribution := m_mort - monthly_rent
      let buy_wealth :=
        fv_lump_sum p.housePrice p.homeAppreciationAnnual p.termYears
      let rent_wealth :=
        fv_lump_sum down p.investmentAnnualReturn p.termYears +
          fv_monthly_annuity monthly_contribution p.investmentAnnualReturn
            p.termYears
      { buyWealth := buy_wealth, rentWealth := rent_wealth,
        difference := buy_wealth - rent_wealth }

/-- The spec's name for the scenario evaluation
(`ScenarioEvaluator.evaluate`); in the source it is
`buy_vs_rent_wealth`. -/
def evaluate : ScenarioParameters → Option ScenarioResult :=
  buy_vs_rent_wealth

/-- The rational-valued scenario fields a sensitivity grid can vary.
The source's three grids sweep `mortgage_rate`, `invest_return`,
`home_appreciation` and `rent_yield`; the other rational fields are
included for the generic sweep. -/
inductive ParamField where
  | housePrice
  | downPaymentFraction
  | mortgageAnnualRate
  | rentYieldAnnual
  | investmentAnnualReturn
  | homeAppreciationAnnual
deriving DecidableEq

/-- Override a single named field of a parameter set. -/
def setField (p : ScenarioParameters) (f : ParamField) (v : ℚ) :
    ScenarioParameters :=
  match f with
  | .housePrice => { p with housePrice := v }
  | .downPaymentFraction => { p with downPaymentFraction := v }
  | .mortgageAnnualRate => { p with mortgageAnnualRate := v }
  | .rentYieldAnnual => { p with rentYieldAnnual := v }
  | .investmentAnnualReturn => { p with investmentAnnualReturn := v }
  | .homeAppreciationAnnual => { p with homeAppreciationAnnual := v }

/-- Modelled from the spec: the generic two-axis sweep
`SensitivityGridRunner.buildGrid` is not itself in the source, which
only contains its three specializations (the nested loops building
`data_A`, `data_B`, `data_C`): for each row value and column value,
override exactly the two named fields of the base parameters, evaluate,
and store the `difference` at `cells[rowIndex][colIndex]`.  A cell is
`Option ℚ` because an evaluation may raise.  (The source additionally
renders each cell through the display formatter `format_rm`, which the
spec places out of scope.) -/
def buildGrid (base : ScenarioParameters) (rowField : ParamField)
    (rowValues : List ℚ) (colField : ParamField) (colValues : List ℚ) :
    List (List (Option ℚ)) :=
  rowValues.map fun rv =>
    colValues.map fun cv =>
      (evaluate (setField (setField base rowField rv) colField cv)).map
        ScenarioResult.difference

/-- The mortgage-rate axis of the source's grid A:
`np.arange(0.03, 0.0601, 0.005)`. -/
def mr_grid : List ℚ :=
  [3/100, 35/1000, 4/100, 45/1000, 5/100, 55/1000, 6/100]

/-- The investment-return axis of the source's grids A and B:
`np.arange(0.04, 0.1001, 0.01)`. -/
def ir_grid : List ℚ :=
  [4/100, 5/100, 6/100, 7/100, 8/100, 9/100, 10/100]

/-- The source's grid A (`data_A`): for each `ir` in `ir_grid` (rows)
and each `mr` in `mr_grid` (columns), the `diff` of
`buy_vs_rent_wealth` with `mortgage_rate=mr` and `invest_return=ir`
overriding the base inputs (before the out-of-scope `format_rm`
rendering). -/
def data_A (base : ScenarioParameters) : List (List (Option ℚ)) :=
  ir_grid.map fun ir =>
    mr_grid.map fun mr =>
      (buy_vs_rent_wealth
        { base with mortgageAnnualRate := mr,
                    investmentAnnualReturn := ir }).map
        ScenarioResult.difference

/-- The sidebar default inputs of the source (the spec's base case):
house price 800000, 10% down, 4% mortgage, 30 years, 4.5% rent yield,
6% investment return, 2% appreciation. -/
def baseParams : ScenarioParameters :=
  { housePrice := 800000, downPaymentFraction := 1/10,
    mortgageAnnualRate := 1/25, termYears := 30,
    rentYieldAnnual := 9/200, investmentAnnualReturn := 3/50,
    homeAppreciationAnnual := 1/50 }

/-- A valid parameter set with zero down payment and a zero-rate
mortgage (house 800000, 30 years, 4.5% rent yield, 2% appreciation),
parameterized by the investment return.  Its monthly mortgage payment
(800000/360 ≈ 2222) is below the monthly rent (3000), so the monthly
investable difference is negative. -/
def noDownParams (ir : ℚ) : ScenarioParameters :=
  { housePrice := 800000, downPaymentFraction := 0,
    mortgageAnnualRate := 0, termYears := 30,
    rentYieldAnnual := 9/200, investmentAnnualReturn := ir,
    homeAppreciationAnnual := 1/50 }

/-- A valid parameter set whose monthly investable difference is
positive: 10% down, zero-rate mortgage (payment 2000), rent yield 1%
(monthly rent ≈ 667). -/
def positiveContribParams : ScenarioParameters :=
  { housePrice := 800000, downPaymentFraction := 1/10,
    mortgageAnnualRate := 0, termYears := 30,
    rentYieldAnnual := 1/100, investmentAnnualReturn := 0,
    homeAppreciationAnnual := 1/50 }

/-- A parameter set agreeing with `baseParams` on house price, term and
appreciation but with different down payment, mortgage rate, rent yield
and investment return. -/
def altFinancingParams : ScenarioParameters :=
  { housePrice := 800000, downPaymentFraction := 1/2,
    mortgageAnnualRate := 0, termYears := 30,
    rentYieldAnnual := 0, investmentAnnualReturn := 0,
    homeAppreciationAnnual := 1/50 }

/-- A parameter set violating the `downPaymentFraction < 1` invariant
(here 3/2), with all rates zero. -/
def invalidDownParams : ScenarioParameters :=
  { housePrice := 800000, downPaymentFraction := 3/2,
    mortgageAnnualRate := 0, termYears := 30,
    rentYieldAnnual := 0, investmentAnnualReturn := 0,
    homeAppreciationAnnual := 0 }

/-! ### Helper lemmas -/

/-- The zero-rate branch: `principal / n` with `n = years*12 ≠ 0`. -/
theorem mmp_zero_rate (p : ℚ) (y : ℕ) (hy : y ≠ 0) :
    monthly_mortgage_payment p 0 y = some (p / ((y : ℚ) * 12)) := by
  have h12 : ((y : ℚ) * 12) ≠ 0 :=
    mul_ne_zero (Nat.cast_ne_zero.mpr hy) (by norm_num)
  simp [monthly_mortgage_payment, qdiv, Nat.cast_mul, h12]

/-- For a positive rate and a positive term, the amortization
denominator `(1+r)^n - 1` is positive. -/
theorem discount_pos (rate : ℚ) (y : ℕ) (hr : 0 < rate) (hy : y ≠ 0) :
    0 < (1 + rate / 12) ^ (y * 12) - 1 := by
  have h1 : 1 < 1 + rate / 12 := by
    have : 0 < rate / 12 := by positivity
    linarith
  have h2 : (1 : ℚ) < (1 + rate / 12) ^ (y * 12) :=
    one_lt_pow₀ h1 (Nat.mul_ne_zero hy (by norm_num))
  linarith

/-- The positive-rate branch of `monthly_mortgage_payment` returns the
amortization formula. -/
theorem mmp_of_rate_pos (p rate : ℚ) (y : ℕ) (hr : 0 < rate) (hy : y ≠ 0) :
    monthly_mortgage_payment p rate y =
      some (p * (rate / 12 * (1 + rate / 12) ^ (y * 12)) /
        ((1 + rate / 12) ^ (y * 12) - 1)) := by
  have hD := discount_pos rate y hr hy
  simp [monthly_mortgage_payment, qdiv, hr.ne', hD.ne']

/-- Under `rate ≥ 0` and a positive term, `monthly_mortgage_payment`
returns a number. -/
theorem mmp_eq_some (p rate : ℚ) (y : ℕ) (hr : 0 ≤ rate) (hy : y ≠ 0) :
    ∃ m, monthly_mortgage_payment p rate y = some m := by
  rcases hr.eq_or_lt with h | h
  · exact ⟨_, h ▸ mmp_zero_rate p y hy⟩
  · exact ⟨_, mmp_of_rate_pos p rate y h hy⟩

/-- The future value of the annuity is the payment times a geometric
sum: in both branches,
`fv_monthly_annuity pmt rate y = pmt * ∑_{k < y*12} (1+rate/12)^k`. -/
theorem fv_monthly_annuity_eq_sum (pmt rate : ℚ) (y : ℕ) :
    fv_monthly_annuity pmt rate y =
      pmt * ∑ k ∈ Finset.range (y * 12), (1 + rate / 12) ^ k := by
  by_cases h : rate = 0
  · subst h; simp [fv_monthly_annuity]
  · have hr : rate / 12 ≠ 0 := div_ne_zero h (by norm_num)
    have hx : (1 + rate / 12) ≠ 1 := by
      intro hc
      exact hr (by linarith [hc])
    rw [fv_monthly_annuity]
    simp only [if_neg h]
    rw [geom_sum_eq hx, add_sub_cancel_left]

/-- Strict monotonicity of the geometric sum in its base, for bases
at least `1` and at least two terms. -/
theorem geom_sum_strict_mono (x₁ x₂ : ℚ) (n : ℕ) (h0 : 0 ≤ x₁)
    (h12 : x₁ < x₂) (hn : 2 ≤ n) :
    ∑ k ∈ Finset.range n, x₁ ^ k < ∑ k ∈ Finset.range n, x₂ ^ k := by
  apply Finset.sum_lt_sum
  · intro i _
    exact pow_le_pow_left₀ h0 h12.le i
  · exact ⟨1, Finset.mem_range.mpr (by omega), by simpa using h12⟩

/-- Unfolding `evaluate` once the mortgage payment is known. -/
theorem evaluate_eq_some (p : ScenarioParameters) (m : ℚ)
    (hm : monthly_mortgage_payment
        (p.housePrice * (1 - p.downPaymentFraction)) p.mortgageAnnualRate
        p.termYears = some m) :
    evaluate p = some
      { buyWealth :=
          fv_lump_sum p.housePrice p.homeAppreciationAnnual p.termYears,
        rentWealth :=
          fv_lump_sum (p.housePrice * p.downPaymentFraction)
              p.investmentAnnualReturn p.termYears +
            fv_monthly_annuity (m - p.housePrice * p.rentYieldAnnual / 12)
              p.investmentAnnualReturn p.termYears,
        difference :=
          fv_lump_sum p.housePrice p.homeAppreciationAnnual p.termYears -
            (fv_lump_sum (p.housePrice * p.downPaymentFraction)
                p.investmentAnnualReturn p.termYears +
              fv_monthly_annuity (m - p.housePrice * p.rentYieldAnnual / 12)
                p.investmentAnnualReturn p.termYears) } := by
  simp [evaluate, buy_vs_rent_wealth, hm]

/-! ### Claims -/

/-- C1: under the `ScenarioParameters` invariants, `evaluate` returns
`buyWealth` = future value of the house price under appreciation,
`rentWealth` = future value of the down payment plus the annuity of the
monthly investable difference (mortgage payment minus monthly rent),
and `difference = buyWealth - rentWealth`. -/
theorem C1_evaluate_formula (p : ScenarioParameters)
    (hhp : 0 < p.housePrice) (hdp0 : 0 ≤ p.downPaymentFraction)
    (hdp1 : p.downPaymentFraction < 1) (hmr : 0 ≤ p.mortgageAnnualRate)
    (hy : 0 < p.termYears) (hry : 0 ≤ p.rentYieldAnnual)
    (hir : 0 ≤ p.investmentAnnualReturn)
    (hha : 0 ≤ p.homeAppreciationAnnual) :
    ∃ m, monthly_mortgage_payment
        (p.housePrice * (1 - p.downPaymentFraction)) p.mortgageAnnualRate
        p.termYears = some m ∧
      evaluate p = some
        { buyWealth :=
            fv_lump_sum p.housePrice p.homeAppreciationAnnual p.termYears,
          rentWealth :=
            fv_lump_sum (p.housePrice * p.downPaymentFraction)
                p.investmentAnnualReturn p.termYears +
              fv_monthly_annuity (m - p.housePrice * p.rentYieldAnnual / 12)
                p.investmentAnnualReturn p.termYears,
          difference :=
            fv_lump_sum p.housePrice p.homeAppreciationAnnual p.termYears -
              (fv_lump_sum (p.housePrice * p.downPaymentFraction)
                  p.investmentAnnualReturn p.termYears +
                fv_monthly_annuity
                  (m - p.housePrice * p.rentYieldAnnual / 12)
                  p.investmentAnnualReturn p.termYears) } := by
  obtain ⟨m, hm⟩ := mmp_eq_some (p.housePrice * (1 - p.downPaymentFraction))
    p.mortgageAnnualRate p.termYears hmr hy.ne'
  exact ⟨m, hm, evaluate_eq_some p m hm⟩

/-- Witness for C1 at the base-case inputs. -/
theorem C1_evaluate_formula_witness :
    ∃ m, monthly_mortgage_payment
        (baseParams.housePrice * (1 - baseParams.downPaymentFraction))
        baseParams.mortgageAnnualRate baseParams.termYears = some m ∧
      evaluate baseParams = some
        { buyWealth :=
            fv_lump_sum baseParams.housePrice
              baseParams.homeAppreciationAnnual baseParams.termYears,
          rentWealth :=
            fv_lump_sum (baseParams.housePrice * baseParams.downPaymentFraction)
                baseParams.investmentAnnualReturn baseParams.termYears +
              fv_monthly_annuity
                (m - baseParams.housePrice * baseParams.rentYieldAnnual / 12)
                baseParams.investmentAnnualReturn baseParams.termYears,
          difference :=
            fv_lump_sum baseParams.housePrice
                baseParams.homeAppreciationAnnual baseParams.termYears -
              (fv_lump_sum
                  (baseParams.housePrice * baseParams.downPaymentFraction)
                  baseParams.investmentAnnualReturn baseParams.termYears +
                fv_monthly_annuity
                  (m - baseParams.housePrice * baseParams.rentYieldAnnual / 12)
                  baseParams.investmentAnnualReturn baseParams.termYears) } :=
  C1_evaluate_formula baseParams (by norm_num [baseParams])
    (by norm_num [baseParams]) (by norm_num [baseParams])
    (by norm_num [baseParams]) (by norm_num [baseParams])
    (by norm_num [baseParams]) (by norm_num [baseParams])
    (by norm_num [baseParams])

/-- C4: `monthlyMortgagePayment` computes `principal / n` when the rate
is zero and the standard amortization formula
`principal * r*(1+r)^n / ((1+r)^n - 1)` when the rate is positive,
with `r = annualRate/12`, `n = years*12`. -/
theorem C4_mmp_formula (p rate : ℚ) (y : ℕ) (hr : 0 ≤ rate) (hy : 0 < y) :
    (rate = 0 →
      monthly_mortgage_payment p rate y = some (p / ((y : ℚ) * 12))) ∧
    (0 < rate →
      monthly_mortgage_payment p rate y =
        some (p * (rate / 12 * (1 + rate / 12) ^ (y * 12)) /
          ((1 + rate / 12) ^ (y * 12) - 1))) := by
  constructor
  · intro h; subst h; exact mmp_zero_rate p y hy.ne'
  · intro h; exact mmp_of_rate_pos p rate y h hy.ne'

/-- Witness for C4: principal 720000 at 4% for 30 years. -/
theorem C4_mmp_formula_witness :
    ((1/25 : ℚ) = 0 →
      monthly_mortgage_payment 720000 (1/25) 30 =
        some (720000 / ((30 : ℕ) * 12 : ℚ))) ∧
    ((0 : ℚ) < 1/25 →
      monthly_mortgage_payment 720000 (1/25) 30 =
        some (720000 * (1/25 / 12 * (1 + 1/25 / 12) ^ (30 * 12)) /
          ((1 + 1/25 / 12) ^ (30 * 12) - 1))) :=
  C4_mmp_formula 720000 (1/25) 30 (by norm_num) (by norm_num)

/-- C5: for positive principal, nonnegative rate and positive term the
mortgage payment is a positive number; with a positive rate the total
paid over the term is at least the principal, and at rate zero the
payment is exactly `principal/(years*12)`. -/
theorem C5_mmp_bounds (p rate : ℚ) (y : ℕ) (hp : 0 < p) (hr : 0 ≤ rate)
    (hy : 0 < y) :
    ∃ m, monthly_mortgage_payment p rate y = some m ∧ 0 < m ∧
      (0 < rate → p ≤ m * ((y : ℚ) * 12)) ∧
      (rate = 0 → m = p / ((y : ℚ) * 12)) := by
  have hyq : (0 : ℚ) < (y : ℚ) * 12 := by
    have : (0 : ℚ) < (y : ℚ) := by exact_mod_cast hy
    linarith
  rcases hr.eq_or_lt with h | h
  · refine ⟨p / ((y : ℚ) * 12), h ▸ mmp_zero_rate p y hy.ne', ?_, ?_, ?_⟩
    · exact div_pos hp hyq
    · intro hrate; rw [← h] at hrate; exact absurd hrate (lt_irrefl 0)
    · intro _; rfl
  · set r : ℚ := rate / 12 with hrdef
    set n : ℕ := y * 12 with hndef
    have hrpos : 0 < r := by positivity
    have hxpos : (0 : ℚ) < 1 + r := by linarith
    have hD := discount_pos rate y h hy.ne'
    have hXpos : (0 : ℚ) < (1 + r) ^ n := pow_pos hxpos n
    refine ⟨p * (r * (1 + r) ^ n) / ((1 + r) ^ n - 1),
      mmp_of_rate_pos p rate y h hy.ne', ?_, ?_, ?_⟩
    · exact div_pos (by positivity) hD
    · intro _
      -- key estimate: (1+r)^n - 1 = (∑_{k<n} (1+r)^k) * r ≤ n*(1+r)^n * r
      have hsum : (∑ k ∈ Finset.range n, (1 + r) ^ k) * ((1 + r) - 1) =
          (1 + r) ^ n - 1 := geom_sum_mul (1 + r) n
      have hsum' : (∑ k ∈ Finset.range n, (1 + r) ^ k) * r =
          (1 + r) ^ n - 1 := by
        calc (∑ k ∈ Finset.range n, (1 + r) ^ k) * r
            = (∑ k ∈ Finset.range n, (1 + r) ^ k) * ((1 + r) - 1) := by
              ring_nf
          _ = (1 + r) ^ n - 1 := hsum
      have hbound : (∑ k ∈ Finset.range n, (1 + r) ^ k) ≤
          (n : ℚ) * (1 + r) ^ n := by
        calc (∑ k ∈ Finset.range n, (1 + r) ^ k)
            ≤ ∑ _k ∈ Finset.range n, (1 + r) ^ n := by
              apply Finset.sum_le_sum
              intro k hk
              exact pow_le_pow_right₀ (by linarith)
                (Finset.mem_range.mp hk).le
          _ = (n : ℚ) * (1 + r) ^ n := by
              rw [Finset.sum_const, Finset.card_range, nsmul_eq_mul]
      have hkey : (1 + r) ^ n - 1 ≤ (n : ℚ) * (1 + r) ^ n * r := by
        rw [← hsum']
        exact mul_le_mul_of_nonneg_right hbound hrpos.le
      rw [div_mul_eq_mul_div, le_div_iff₀ hD]
      have hcast : ((y : ℚ) * 12) = (n : ℚ) := by
        rw [hndef]; push_cast; ring
      rw [hcast]
      nlinarith [hkey, hp.le, hXpos.le]
    · intro hrate; exact absurd hrate (by linarith)

/-- Witness for C5 at principal 720000, rate 4%, 30 years. -/
theorem C5_mmp_bounds_witness :
    ∃ m, monthly_mortgage_payment 720000 (1/25) 30 = some m ∧ 0 < m ∧
      ((0 : ℚ) < 1/25 → 720000 ≤ m * ((30 : ℕ) * 12 : ℚ)) ∧
      ((1/25 : ℚ) = 0 → m = 720000 / ((30 : ℕ) * 12 : ℚ)) :=
  C5_mmp_bounds 720000 (1/25) 30 (by norm_num) (by norm_num) (by norm_num)

/-- C7: holding all else fixed, `buyWealth` is strictly increasing in
`homeAppreciationAnnual`. -/
theorem C7_buyWealth_strictMono (p : ScenarioParameters) (a₁ a₂ : ℚ)
    (hhp : 0 < p.housePrice) (hy : 0 < p.termYears)
    (hmr : 0 ≤ p.mortgageAnnualRate) (h0 : 0 ≤ a₁) (h12 : a₁ < a₂) :
    ∃ r₁ r₂,
      evaluate { p with homeAppreciationAnnual := a₁ } = some r₁ ∧
      evaluate { p with homeAppreciationAnnual := a₂ } = some r₂ ∧
      r₁.buyWealth < r₂.buyWealth := by
  obtain ⟨m, hm⟩ := mmp_eq_some (p.housePrice * (1 - p.downPaymentFraction))
    p.mortgageAnnualRate p.termYears hmr hy.ne'
  refine ⟨_, _, evaluate_eq_some _ m hm, evaluate_eq_some _ m hm, ?_⟩
  show fv_lump_sum p.housePrice a₁ p.termYears <
    fv_lump_sum p.housePrice a₂ p.termYears
  unfold fv_lump_sum
  exact mul_lt_mul_of_pos_left
    (pow_lt_pow_left₀ (by linarith) (by linarith) hy.ne') hhp

/-- Witness for C7: base parameters, appreciation 0% versus 2%. -/
theorem C7_buyWealth_strictMono_witness :
    ∃ r₁ r₂,
      evaluate { baseParams with homeAppreciationAnnual := 0 } = some r₁ ∧
      evaluate { baseParams with homeAppreciationAnnual := 1/50 } = some r₂ ∧
      r₁.buyWealth < r₂.buyWealth :=
  C7_buyWealth_strictMono baseParams 0 (1/50) (by norm_num [baseParams])
    (by norm_num [baseParams]) (by norm_num [baseParams]) (by norm_num)
    (by norm_num)

/-- C2 counterexample: `rentWealth` is NOT strictly increasing in
`investmentAnnualReturn` on all invariant-satisfying inputs.  With zero
down payment, a free mortgage (rate 0) and rent at 4.5% of the price,
the monthly investable difference is negative (the mortgage payment
800000/360 is below the 3000 monthly rent), so raising the investment
return from 0 to 6% strictly DECREASES `rentWealth`. -/
theorem C2_counterexample :
    (evaluate (noDownParams 0)).isSome = true ∧
    (evaluate (noDownParams (3/50))).isSome = true ∧
    ((evaluate (noDownParams (3/50))).map
        ScenarioResult.rentWealth).getD 0 <
      ((evaluate (noDownParams 0)).map ScenarioResult.rentWealth).getD 0 := by
  refine ⟨rfl, rfl, ?_⟩
  norm_num [evaluate, buy_vs_rent_wealth, monthly_mortgage_payment, qdiv,
    fv_lump_sum, fv_monthly_annuity, noDownParams]

/-- C2 amended: `rentWealth` is strictly increasing in
`investmentAnnualReturn` provided the monthly investable difference
(mortgage payment minus monthly rent) is positive. -/
theorem C2_rentWealth_strictMono (p : ScenarioParameters) (i₁ i₂ m : ℚ)
    (hhp : 0 ≤ p.housePrice) (hdp : 0 ≤ p.downPaymentFraction)
    (hy : 0 < p.termYears) (h0 : 0 ≤ i₁) (h12 : i₁ < i₂)
    (hm : monthly_mortgage_payment
        (p.housePrice * (1 - p.downPaymentFraction)) p.mortgageAnnualRate
        p.termYears = some m)
    (hc : 0 < m - p.housePrice * p.rentYieldAnnual / 12) :
    ∃ r₁ r₂,
      evaluate { p with investmentAnnualReturn := i₁ } = some r₁ ∧
      evaluate { p with investmentAnnualReturn := i₂ } = some r₂ ∧
      r₁.rentWealth < r₂.rentWealth := by
  refine ⟨_, _, evaluate_eq_some _ m hm, evaluate_eq_some _ m hm, ?_⟩
  show fv_lump_sum (p.housePrice * p.downPaymentFraction) i₁ p.termYears +
      fv_monthly_annuity (m - p.housePrice * p.rentYieldAnnual / 12) i₁
        p.termYears <
    fv_lump_sum (p.housePrice * p.downPaymentFraction) i₂ p.termYears +
      fv_monthly_annuity (m - p.housePrice * p.rentYieldAnnual / 12) i₂
        p.termYears
  apply add_lt_add_of_le_of_lt
  · unfold fv_lump_sum
    exact mul_le_mul_of_nonneg_left
      (pow_le_pow_left₀ (by linarith) (by linarith) p.termYears)
      (mul_nonneg hhp hdp)
  · rw [fv_monthly_annuity_eq_sum, fv_monthly_annuity_eq_sum]
    apply mul_lt_mul_of_pos_left _ hc
    apply geom_sum_strict_mono
    · positivity
    · linarith
    · have : 1 ≤ p.termYears := hy
      omega

/-- Witness for C2's amended statement: zero mortgage rate, 1% rent
yield (monthly contribution 2000 − 666.67 > 0), return 0 versus 10%. -/
theorem C2_rentWealth_strictMono_witness :
    ∃ r₁ r₂,
      evaluate { positiveContribParams with investmentAnnualReturn := 0 } =
        some r₁ ∧
      evaluate { positiveContribParams with investmentAnnualReturn := 1/10 } =
        some r₂ ∧
      r₁.rentWealth < r₂.rentWealth :=
  C2_rentWealth_strictMono positiveContribParams 0 (1/10) 2000
    (by norm_num [positiveContribParams])
    (by norm_num [positiveContribParams])
    (by norm_num [positiveContribParams]) (by norm_num) (by norm_num)
    (by norm_num [monthly_mortgage_payment, qdiv, positiveContribParams])
    (by norm_num [positiveContribParams])

/-- C10: `buyWealth` depends only on the house price, the appreciation
rate and the term; two valid parameter sets agreeing on those three
fields produce the same `buyWealth` whatever their down payment,
mortgage rate, rent yield and investment return. -/
theorem C10_buyWealth_independent (p q : ScenarioParameters)
    (hhp : p.housePrice = q.housePrice)
    (hha : p.homeAppreciationAnnual = q.homeAppreciationAnnual)
    (hy : p.termYears = q.termYears) (hyp : 0 < p.termYears)
    (hmrp : 0 ≤ p.mortgageAnnualRate) (hmrq : 0 ≤ q.mortgageAnnualRate) :
    ∃ r₁ r₂, evaluate p = some r₁ ∧ evaluate q = some r₂ ∧
      r₁.buyWealth = r₂.buyWealth := by
  obtain ⟨m₁, hm₁⟩ := mmp_eq_some (p.housePrice * (1 - p.downPaymentFraction))
    p.mortgageAnnualRate p.termYears hmrp hyp.ne'
  obtain ⟨m₂, hm₂⟩ := mmp_eq_some (q.housePrice * (1 - q.downPaymentFraction))
    q.mortgageAnnualRate q.termYears hmrq (hy ▸ hyp.ne')
  refine ⟨_, _, evaluate_eq_some p m₁ hm₁, evaluate_eq_some q m₂ hm₂, ?_⟩
  show fv_lump_sum p.housePrice p.homeAppreciationAnnual p.termYears =
    fv_lump_sum q.housePrice q.homeAppreciationAnnual q.termYears
  rw [hhp, hha, hy]

/-- Witness for C10: the base parameters against a set with half down,
free mortgage, no rent and no investment return. -/
theorem C10_buyWealth_independent_witness :
    ∃ r₁ r₂, evaluate baseParams = some r₁ ∧
      evaluate altFinancingParams = some r₂ ∧
      r₁.buyWealth = r₂.buyWealth :=
  C10_buyWealth_independent baseParams altFinancingParams
    (by norm_num [baseParams, altFinancingParams])
    (by norm_num [baseParams, altFinancingParams])
    (by norm_num [baseParams, altFinancingParams])
    (by norm_num [baseParams]) (by norm_num [baseParams])
    (by norm_num [altFinancingParams])

/-- C8: at the boundary `downPaymentFraction = 1` the loan principal is
`0`, the mortgage payment is `0` in both rate branches, and `evaluate`
still returns a result — no division by zero occurs. -/
theorem C8_boundary (p : ScenarioParameters)
    (hdp : p.downPaymentFraction = 1) (hmr : 0 ≤ p.mortgageAnnualRate)
    (hy : 0 < p.termYears) :
    monthly_mortgage_payment 0 p.mortgageAnnualRate p.termYears = some 0 ∧
    monthly_mortgage_payment (p.housePrice * (1 - p.downPaymentFraction))
      p.mortgageAnnualRate p.termYears = some 0 ∧
    ∃ res, evaluate p = some res := by
  have hzero : ∀ rate : ℚ, 0 ≤ rate →
      monthly_mortgage_payment 0 rate p.termYears = some 0 := by
    intro rate hrate
    rcases hrate.eq_or_lt with h | h
    · rw [← h, mmp_zero_rate 0 p.termYears hy.ne', zero_div]
    · rw [mmp_of_rate_pos 0 rate p.termYears h hy.ne', zero_mul, zero_div]
  have hloan : p.housePrice * (1 - p.downPaymentFraction) = 0 := by
    rw [hdp]; ring
  have h1 := hzero p.mortgageAnnualRate hmr
  refine ⟨h1, ?_, ?_⟩
  · rw [hloan]; exact h1
  · exact ⟨_, evaluate_eq_some p 0 (by rw [hloan]; exact h1)⟩

/-- Witness for C8: full down payment at the base-case rates. -/
theorem C8_boundary_witness :
    monthly_mortgage_payment 0
      (baseParams.mortgageAnnualRate) (baseParams.termYears) = some 0 ∧
    monthly_mortgage_payment
      (({ baseParams with downPaymentFraction := 1 } :
          ScenarioParameters).housePrice *
        (1 - ({ baseParams with downPaymentFraction := 1 } :
          ScenarioParameters).downPaymentFraction))
      (baseParams.mortgageAnnualRate) (baseParams.termYears) = some 0 ∧
    ∃ res, evaluate { baseParams with downPaymentFraction := 1 } =
      some res :=
  C8_boundary { baseParams with downPaymentFraction := 1 } rfl
    (by norm_num [baseParams]) (by norm_num [baseParams])

/-- C3 counterexample: the code does NOT fail fast on invalid
parameters.  With `downPaymentFraction = 3/2 ≥ 1` the evaluator still
returns a number, and `monthly_mortgage_payment` accepts a negative
principal. -/
theorem C3_counterexample :
    (evaluate invalidDownParams).isSome = true ∧
    (monthly_mortgage_payment (-1000) 0 30).isSome = true := by
  constructor
  · rfl
  · rfl

/-- C3 amended: the core performs no input validation.  For any
parameter set with a nonnegative mortgage rate it returns a number
whenever `termYears ≠ 0` — including sets violating the invariants
(`downPaymentFraction ≥ 1`, negative prices, negative yields) — and the
only failure is the `ZeroDivisionError` at `termYears = 0`, not an
`InvalidParameter` rejection. -/
theorem C3_no_validation (p : ScenarioParameters)
    (hmr : 0 ≤ p.mortgageAnnualRate) :
    (p.termYears ≠ 0 → (evaluate p).isSome = true) ∧
    (p.termYears = 0 → evaluate p = none) := by
  constructor
  · intro hy
    obtain ⟨m, hm⟩ := mmp_eq_some
      (p.housePrice * (1 - p.downPaymentFraction)) p.mortgageAnnualRate
      p.termYears hmr hy
    rw [evaluate_eq_some p m hm]
    rfl
  · intro hy
    have hnone : monthly_mortgage_payment
        (p.housePrice * (1 - p.downPaymentFraction)) p.mortgageAnnualRate
        p.termYears = none := by
      simp [monthly_mortgage_payment, qdiv, hy]
    simp [evaluate, buy_vs_rent_wealth, hnone]

/-- Witness for C3's amended statement at the base parameters. -/
theorem C3_no_validation_witness :
    (baseParams.termYears ≠ 0 → (evaluate baseParams).isSome = true) ∧
    (baseParams.termYears = 0 → evaluate baseParams = none) :=
  C3_no_validation baseParams (by norm_num [baseParams])

/-- C6: every cell of `buildGrid` is the `difference` of `evaluate` at
the base parameters with exactly the two named fields overridden by the
row and column values; in particular a 1×1 grid holds exactly that one
evaluation. -/
theorem C6_grid_cell (base : ScenarioParameters) (rf cf : ParamField)
    (rvs cvs : List ℚ) (i j : ℕ) (a b : ℚ)
    (hi : i < rvs.length) (hj : j < cvs.length)
    (hgi : i < (buildGrid base rf rvs cf cvs).length)
    (hgj : j < ((buildGrid base rf rvs cf cvs).get ⟨i, hgi⟩).length) :
    ((buildGrid base rf rvs cf cvs).get ⟨i, hgi⟩).get ⟨j, hgj⟩ =
      (evaluate (setField (setField base rf (rvs.get ⟨i, hi⟩)) cf
        (cvs.get ⟨j, hj⟩))).map ScenarioResult.difference ∧
    buildGrid base rf [a] cf [b] =
      [[(evaluate (setField (setField base rf a) cf b)).map
        ScenarioResult.difference]] := by
  constructor
  · simp [buildGrid]
  · rfl

/-- Witness for C6 on a 2×1 grid at the base parameters, reading the
cell `[1][0]`, together with the 1×1 instance. -/
theorem C6_grid_cell_witness :
    ((buildGrid baseParams ParamField.homeAppreciationAnnual [0, 1/50]
          ParamField.rentYieldAnnual [1/100]).get ⟨1, by decide⟩).get
        ⟨0, by decide⟩ =
      (evaluate (setField (setField baseParams
          ParamField.homeAppreciationAnnual
          ([0, 1/50].get ⟨1, by decide⟩))
        ParamField.rentYieldAnnual
          (([1/100] : List ℚ).get ⟨0, by decide⟩))).map
        ScenarioResult.difference ∧
    buildGrid baseParams ParamField.homeAppreciationAnnual [0]
        ParamField.rentYieldAnnual [1/100] =
      [[(evaluate (setField (setField baseParams
          ParamField.homeAppreciationAnnual 0)
        ParamField.rentYieldAnnual (1/100))).map
        ScenarioResult.difference]] :=
  C6_grid_cell baseParams ParamField.homeAppreciationAnnual
    ParamField.rentYieldAnnual [0, 1/50] [1/100] 1 0 0 (1/100)
    (by decide) (by decide) (by decide) (by decide)

/-- C9 counterexample: the spec's base-case numbers are off.  The
mortgage payment on 720000 at 4% over 30 years is 3437.39…, more than
0.8 above the claimed 3436.52, and the wealth difference is 550245.01…,
more than 3000 below the claimed 553256. -/
theorem C9_counterexample :
    (monthly_mortgage_payment 720000 (1/25) 30).isSome = true ∧
    (evaluate baseParams).isSome = true ∧
    343652/100 + 4/5 <
      (monthly_mortgage_payment 720000 (1/25) 30).getD 0 ∧
    ((evaluate baseParams).map ScenarioResult.difference).getD 0 <
      553256 - 3000 := by
  refine ⟨?_, ?_, ?_, ?_⟩ <;>
    norm_num [evaluate, buy_vs_rent_wealth, monthly_mortgage_payment,
      qdiv, fv_lump_sum, fv_monthly_annuity, baseParams]

/-- C9 amended: at the base case the payment is ≈ 3437.39, `buyWealth`
≈ 1,449,089, `rentWealth` ≈ 898,844 and `difference` ≈ 550,245
(positive: buying ahead). -/
theorem C9_base_case :
    (monthly_mortgage_payment 720000 (1/25) 30).isSome = true ∧
    (evaluate baseParams).isSome = true ∧
    343739/100 < (monthly_mortgage_payment 720000 (1/25) 30).getD 0 ∧
    (monthly_mortgage_payment 720000 (1/25) 30).getD 0 < 34374/10 ∧
    1449089 < ((evaluate baseParams).map ScenarioResult.buyWealth).getD 0 ∧
    ((evaluate baseParams).map ScenarioResult.buyWealth).getD 0 < 1449090 ∧
    898844 < ((evaluate baseParams).map ScenarioResult.rentWealth).getD 0 ∧
    ((evaluate baseParams).map ScenarioResult.rentWealth).getD 0 < 898845 ∧
    550245 < ((evaluate baseParams).map ScenarioResult.difference).getD 0 ∧
    ((evaluate baseParams).map ScenarioResult.difference).getD 0 <
      550246 := by
  refine ⟨?_, ?_, ?_, ?_, ?_, ?_, ?_, ?_, ?_, ?_⟩ <;>
    norm_num [evaluate, buy_vs_rent_wealth, monthly_mortgage_payment,
      qdiv, fv_lump_sum, fv_monthly_annuity, baseParams]

/-- The source's `data_A` nested loop is the generic sweep with rows
varying the investment return and columns the mortgage rate. -/
theorem data_A_eq_buildGrid (base : ScenarioParameters) :
    data_A base = buildGrid base ParamField.investmentAnnualReturn ir_grid
      ParamField.mortgageAnnualRate mr_grid := rfl

end BuyVsRent
